import Mathlib

/-!
Shallow embedding of the ai-navigator integration test scripts
(`backend_test.py` and `backend_test_ai_navigator.py`).

Each script defines a tester class holding two counters (`tests_run`,
`tests_passed`), a `run_test` method that sends one HTTP request through the
`requests` library and compares the response status code with an expected
value, a set of fixed scenarios, and a `main` driver that runs the scenarios
in order, prints a tally and returns an exit code.

The HTTP client is modelled as a function from the issued call to an outcome
(a response, or a transport-level error that raises inside `requests.get` /
`requests.post`).  Printing is modelled as an accumulated list of output
lines; the Python exceptions that can occur inside the `try` block are
modelled explicitly with `Except`.
-/

/-- Python dicts with string keys and string values, in insertion order
(models the `headers` dictionaries of the scripts). -/
abbrev Dict := List (String × String)

/-- Python dict assignment `d[key] = val`: updates the value in place when the
key is present (keeping its position), otherwise appends the new entry. -/
def dictSet : Dict → String → String → Dict
  | [], key, val => [(key, val)]
  | (k, v) :: rest, key, val =>
      if k = key then (key, val) :: rest else (k, v) :: dictSet rest key val

/-- Python dict lookup `d.get(key)`. -/
def dictGet : Dict → String → Option String
  | [], _ => none
  | (k, v) :: rest, key => if k = key then some v else dictGet rest key

mutual
/-- JSON values, as produced by `json=` request payloads and `response.json()`.
The scripts only ever build objects, strings and numbers. -/
inductive Json where
  | null : Json
  | bool (b : Bool) : Json
  | num (n : Int) : Json
  | str (s : String) : Json
  | obj (fields : JsonObj) : Json

/-- Ordered field list of a JSON object. -/
inductive JsonObj where
  | nil : JsonObj
  | cons (key : String) (value : Json) (rest : JsonObj) : JsonObj
end

mutual
/-- Model of `json.dumps` (the exact formatting of the printed JSON is
immaterial to every property below; only the fact that a line is printed
matters). -/
def Json.dumps : Json → String
  | Json.null => "null"
  | Json.bool true => "true"
  | Json.bool false => "false"
  | Json.num n => toString n
  | Json.str s => "\"" ++ s ++ "\""
  | Json.obj fs => "\x7b" ++ JsonObj.dumpsFields fs ++ "\x7d"

/-- Serialisation of an object field list, comma separated. -/
def JsonObj.dumpsFields : JsonObj → String
  | JsonObj.nil => ""
  | JsonObj.cons k v JsonObj.nil => "\"" ++ k ++ "\": " ++ Json.dumps v
  | JsonObj.cons k v rest =>
      "\"" ++ k ++ "\": " ++ Json.dumps v ++ ", " ++ JsonObj.dumpsFields rest
end

/-- An HTTP response object, as seen by the scripts: `status_code`, the raw
body `text`, and the result of `response.json()` (`none` models the body not
being valid JSON, in which case `response.json()` raises). -/
structure Response where
  status_code : Nat
  text : String
  json : Option Json

/-- One call into the `requests` library: `requests.get(url, headers=...)` or
`requests.post(url, json=data, headers=...)`. -/
inductive HttpCall where
  | get (url : String) (headers : Dict) : HttpCall
  | post (url : String) (data : Option Json) (headers : Dict) : HttpCall

/-- What the HTTP client does on a call: deliver a response, or raise a
transport-level error (connection error, timeout, DNS failure). -/
inductive HttpOutcome where
  | response (r : Response) : HttpOutcome
  | transportError (msg : String) : HttpOutcome

/-- The environment: behaviour of the HTTP client for each possible call. -/
abbrev Client := HttpCall → HttpOutcome

/-- Python exceptions that can be raised inside the `try` block of
`run_test`: a transport error out of `requests`, or the `NameError` from
reading the never-assigned `response` variable when the method is neither
GET nor POST. -/
inductive PyExn where
  | nameError : PyExn
  | transportError (msg : String) : PyExn

/-- Rendering `str(e)` for the caught exception (the exact runtime message
text of a `NameError` is immaterial; the transport error carries its
message). -/
def PyExn.message : PyExn → String
  | PyExn.nameError => "name response is not defined"
  | PyExn.transportError msg => msg

/-- Python values returned as the second component of `run_test`: the
response object itself (`backend_test.py`), a JSON value obtained from
`response.json()` or a `\x7b\x7d` literal (`backend_test_ai_navigator.py`),
or Python `None` (the exception branch of `backend_test.py`). -/
inductive PyValue where
  | pynone : PyValue
  | json (j : Json) : PyValue
  | responseObj (r : Response) : PyValue

/-- The two counters held by each tester object. -/
structure TesterState where
  tests_run : Nat
  tests_passed : Nat
deriving DecidableEq

/-- Everything observable about one `run_test` invocation: the returned
success flag and second return value, the tester state after the call, the
lines printed, and the `requests` calls issued. -/
structure RunOutcome where
  success : Bool
  ret : PyValue
  state : TesterState
  output : List String
  calls : List HttpCall

/-- The default `base_url` of both tester classes (every scenario in the
scripts uses the default). -/
def base_url : String :=
  "https://5f6a5921-01eb-4826-9aa9-c3a3bfafbe22.preview.emergentagent.com"

/-- Line printed at the start of every `run_test` invocation. -/
def testingLine (name : String) : String := "\n🔍 Testing " ++ name ++ "..."

/-- Line printed when the status code matches. -/
def passLine (code : Nat) : String := "✅ Passed - Status: " ++ toString code

/-- Line printed when the status code does not match. -/
def failLine (expected got : Nat) : String :=
  "❌ Failed - Expected " ++ toString expected ++ ", got " ++ toString got

/-- Line printed by the `except` branch of `run_test`. -/
def errorLine (e : PyExn) : String := "❌ Failed - Error: " ++ e.message

namespace AINavigatorAPITester

/-- Truncated raw-text preview printed by `backend_test.py`
(`response.text[:200]` followed by an ellipsis). -/
def previewLine (text : String) : String := "Response: " ++ text.take 200 ++ "..."

/-- Pretty-printed JSON body line of `backend_test.py`. -/
def jsonLine (j : Json) : String := "Response: " ++ Json.dumps j

/-- Header computation of `backend_test.py` lines 15-18: default
`Content-Type: application/json` when the caller passes no headers, otherwise
`headers['Content-Type'] = 'application/json'` merged into the caller's
dictionary. -/
def merged_headers : Option Dict → Dict
  | none => [("Content-Type", "application/json")]
  | some h => dictSet h "Content-Type" "application/json"

/-- Response inspection of `backend_test.py` lines 29-43: compare the status
code, print a pass line (with pretty JSON, falling back to a truncated text
preview when `response.json()` raises) or a fail line with a preview, and
return `(success, response)`. -/
def inspect (r : Response) (expected_status : Nat) : Bool × PyValue × List String :=
  let success := r.status_code == expected_status
  if success then
    (success, PyValue.responseObj r,
      passLine r.status_code ::
        (if r.text = "" then []
         else
           match r.json with
           | some j => [jsonLine j]
           | none => [previewLine r.text]))
  else
    (success, PyValue.responseObj r,
      failLine expected_status r.status_code ::
        (if r.text = "" then [] else [previewLine r.text]))

/-- The `try` block body of `backend_test.py` lines 24-43: issue the GET or
POST call (a transport error raises out of it), inspect the response; any
other method issues no call, and the later read of the unassigned `response`
variable raises a `NameError`.  Returns the body's result (or the exception
it raises) together with the list of `requests` calls issued. -/
def try_body (client : Client) (url : String) (hdrs : Dict) (method : String)
    (expected_status : Nat) (data : Option Json) :
    Except PyExn (Bool × PyValue × List String) × List HttpCall :=
  if method = "GET" then
    match client (HttpCall.get url hdrs) with
    | HttpOutcome.transportError m =>
        (Except.error (PyExn.transportError m), [HttpCall.get url hdrs])
    | HttpOutcome.response r =>
        (Except.ok (inspect r expected_status), [HttpCall.get url hdrs])
  else if method = "POST" then
    match client (HttpCall.post url data hdrs) with
    | HttpOutcome.transportError m =>
        (Except.error (PyExn.transportError m), [HttpCall.post url data hdrs])
    | HttpOutcome.response r =>
        (Except.ok (inspect r expected_status), [HttpCall.post url data hdrs])
  else
    (Except.error PyExn.nameError, [])

/-- The `try`/`except` of `backend_test.py`: on a normal body result, record
the passed-counter increment and the returned pair; on any exception, print
the error line and return `(False, None)`.  `st1` is the state after the
unconditional `tests_run` increment. -/
def after_try (st1 : TesterState) (name : String)
    (res : Except PyExn (Bool × PyValue × List String) × List HttpCall) : RunOutcome :=
  match res with
  | (Except.ok (success, ret, lines), calls) =>
      { success := success, ret := ret,
        state :=
          if success then ⟨st1.tests_run, st1.tests_passed + 1⟩ else st1,
        output := testingLine name :: lines,
        calls := calls }
  | (Except.error e, calls) =>
      { success := false, ret := PyValue.pynone,
        state := st1,
        output := [testingLine name, errorLine e],
        calls := calls }

/-- `AINavigatorAPITester.run_test` of `backend_test.py`: build the URL,
compute the headers, increment `tests_run`, then run the `try` block under
the `except` handler. -/
def run_test (client : Client) (st : TesterState) (name method endpoint : String)
    (expected_status : Nat) (data : Option Json) (headers : Option Dict) : RunOutcome :=
  after_try ⟨st.tests_run + 1, st.tests_passed⟩ name
    (try_body client (base_url ++ "/" ++ endpoint) (merged_headers headers)
      method expected_status data)

/-- `AINavigatorAPITester.test_root_endpoint`. -/
def test_root_endpoint (client : Client) (st : TesterState) : RunOutcome :=
  run_test client st "Root API Endpoint" "GET" "api" 200 none none

/-- `AINavigatorAPITester.test_status_endpoint`. -/
def test_status_endpoint (client : Client) (st : TesterState) : RunOutcome :=
  run_test client st "Status Endpoint" "GET" "api/status" 200 none none

end AINavigatorAPITester

/-- A wall-clock instant as read by `datetime.now()`. -/
structure Timestamp where
  year : Nat
  month : Nat
  day : Nat
  hour : Nat
  minute : Nat
  second : Nat
  microsecond : Nat
deriving DecidableEq

/-- Two-digit zero padding used by the numeric `strftime` fields. -/
def pad2 (n : Nat) : String := if n < 10 then "0" ++ toString n else toString n

/-- `datetime.now().strftime('%Y%m%d%H%M%S')`: the format string reads the
fields down to whole seconds only; the `microsecond` field of the instant is
not consulted. -/
def strftimeYmdHMS (t : Timestamp) : String :=
  toString t.year ++ pad2 t.month ++ pad2 t.day ++
    pad2 t.hour ++ pad2 t.minute ++ pad2 t.second

/-- The generated client identifier of `test_create_status`:
`f"test_client_\x7bdatetime.now().strftime('%Y%m%d%H%M%S')\x7d"`. -/
def client_name (t : Timestamp) : String := "test_client_" ++ strftimeYmdHMS t

/-- The instant truncated to whole seconds (microseconds dropped). -/
def secondsPart (t : Timestamp) : Timestamp :=
  ⟨t.year, t.month, t.day, t.hour, t.minute, t.second, 0⟩

/-- The request body of `test_create_status`: a single-field mapping
`{"client_name": ...}`. -/
def create_status_data (t : Timestamp) : Json :=
  Json.obj (JsonObj.cons "client_name" (Json.str (client_name t)) JsonObj.nil)

namespace AINavigatorAPITester

/-- `AINavigatorAPITester.test_create_status`; `now` is the instant read by
`datetime.now()` inside the method. -/
def test_create_status (client : Client) (st : TesterState) (now : Timestamp) : RunOutcome :=
  run_test client st "Create Status Check" "POST" "api/status" 200
    (some (create_status_data now)) none

/-- A maturity-level entry `{"current": 1, "target": 3}`. -/
def maturity_pair : Json :=
  Json.obj (JsonObj.cons "current" (Json.num 1)
    (JsonObj.cons "target" (Json.num 3) JsonObj.nil))

/-- The roadmap request body shared by both roadmap scenarios. -/
def roadmap_data : Json :=
  Json.obj (JsonObj.cons "business_goals" (Json.str "Improve customer service with AI")
    (JsonObj.cons "maturity_levels"
      (Json.obj (JsonObj.cons "AI Strategy" maturity_pair
        (JsonObj.cons "AI Value" maturity_pair
          (JsonObj.cons "AI Organization" maturity_pair
            (JsonObj.cons "People & Culture" maturity_pair JsonObj.nil)))))
      JsonObj.nil))

/-- `AINavigatorAPITester.test_generate_roadmap_free_query`. -/
def test_generate_roadmap_free_query (client : Client) (st : TesterState) : RunOutcome :=
  run_test client st "Generate Roadmap (Free Query)" "POST" "api/generate" 200
    (some roadmap_data) none

/-- `AINavigatorAPITester.test_generate_roadmap_with_api_key`. -/
def test_generate_roadmap_with_api_key (client : Client) (st : TesterState) : RunOutcome :=
  run_test client st "Generate Roadmap (With API Key)" "POST" "api/generate" 200
    (some roadmap_data)
    (some [("X-API-Key", "test-key-123"), ("X-API-Provider", "gemini")])

end AINavigatorAPITester

/-- Final tally line printed by both drivers. -/
def tallyLine (st : TesterState) : String :=
  "\n📊 Tests passed: " ++ toString st.tests_passed ++ "/" ++ toString st.tests_run

/-- Result of a whole driver run: the value returned to `sys.exit`, the final
counter state, and everything printed. -/
structure ProgResult where
  exit_code : Nat
  state : TesterState
  output : List String

namespace AINavigatorAPITester

/-- The `main` driver of `backend_test.py`: runs the five scenarios in order
on a fresh tester, prints the tally, and returns `0` when
`tests_passed == tests_run`, else `1`. -/
def main (client : Client) (now : Timestamp) : ProgResult :=
  let r1 := test_root_endpoint client ⟨0, 0⟩
  let r2 := test_status_endpoint client r1.state
  let r3 := test_create_status client r2.state now
  let r4 := test_generate_roadmap_free_query client r3.state
  let r5 := test_generate_roadmap_with_api_key client r4.state
  { exit_code := if r5.state.tests_passed = r5.state.tests_run then 0 else 1,
    state := r5.state,
    output :=
      "\n=== Basic API Tests ===" :: (r1.output ++ r2.output ++ r3.output ++
        "\n=== BYOK Functionality Tests ===" :: (r4.output ++ r5.output ++
          [tallyLine r5.state])) }

end AINavigatorAPITester

namespace AINavigatorTester

/-- Full-text response line printed by the failure branch of
`backend_test_ai_navigator.py` (no truncation there). -/
def textLine (text : String) : String := "Response: " ++ text

/-- Header computation of `backend_test_ai_navigator.py` lines 16-17: the
default `Content-Type` applies only when the caller passes no headers; a
caller-supplied dictionary is used unchanged. -/
def given_headers : Option Dict → Dict
  | none => [("Content-Type", "application/json")]
  | some h => h

/-- Response inspection of `backend_test_ai_navigator.py` lines 28-42: on a
status match print the pass line and return `response.json()`, falling back
to `\x7b\x7d` when it raises; on a mismatch print the fail line and the full
body text, then return `response.json()` with the same fallback. -/
def inspect (r : Response) (expected_status : Nat) : Bool × PyValue × List String :=
  let success := r.status_code == expected_status
  if success then
    match r.json with
    | some j => (success, PyValue.json j, [passLine r.status_code])
    | none => (success, PyValue.json (Json.obj JsonObj.nil), [passLine r.status_code])
  else
    match r.json with
    | some j =>
        (false, PyValue.json j,
          [failLine expected_status r.status_code, textLine r.text])
    | none =>
        (false, PyValue.json (Json.obj JsonObj.nil),
          [failLine expected_status r.status_code, textLine r.text])

/-- The `try` block body of `backend_test_ai_navigator.py` lines 23-42
(same shape as in `backend_test.py`). -/
def try_body (client : Client) (url : String) (hdrs : Dict) (method : String)
    (expected_status : Nat) (data : Option Json) :
    Except PyExn (Bool × PyValue × List String) × List HttpCall :=
  if method = "GET" then
    match client (HttpCall.get url hdrs) with
    | HttpOutcome.transportError m =>
        (Except.error (PyExn.transportError m), [HttpCall.get url hdrs])
    | HttpOutcome.response r =>
        (Except.ok (inspect r expected_status), [HttpCall.get url hdrs])
  else if method = "POST" then
    match client (HttpCall.post url data hdrs) with
    | HttpOutcome.transportError m =>
        (Except.error (PyExn.transportError m), [HttpCall.post url data hdrs])
    | HttpOutcome.response r =>
        (Except.ok (inspect r expected_status), [HttpCall.post url data hdrs])
  else
    (Except.error PyExn.nameError, [])

/-- The `try`/`except` of `backend_test_ai_navigator.py`: the exception
branch prints the error line and returns `(False, \x7b\x7d)`. -/
def after_try (st1 : TesterState) (name : String)
    (res : Except PyExn (Bool × PyValue × List String) × List HttpCall) : RunOutcome :=
  match res with
  | (Except.ok (success, ret, lines), calls) =>
      { success := success, ret := ret,
        state :=
          if success then ⟨st1.tests_run, st1.tests_passed + 1⟩ else st1,
        output := testingLine name :: lines,
        calls := calls }
  | (Except.error e, calls) =>
      { success := false, ret := PyValue.json (Json.obj JsonObj.nil),
        state := st1,
        output := [testingLine name, errorLine e],
        calls := calls }

/-- `AINavigatorTester.run_test` of `backend_test_ai_navigator.py`. -/
def run_test (client : Client) (st : TesterState) (name method endpoint : String)
    (expected_status : Nat) (data : Option Json) (headers : Option Dict) : RunOutcome :=
  after_try ⟨st.tests_run + 1, st.tests_passed⟩ name
    (try_body client (base_url ++ "/" ++ endpoint) (given_headers headers)
      method expected_status data)

/-- `AINavigatorTester.test_status`. -/
def test_status (client : Client) (st : TesterState) : RunOutcome :=
  run_test client st "Status Endpoint" "GET" "api/status" 200 none none

/-- `AINavigatorTester.test_root`. -/
def test_root (client : Client) (st : TesterState) : RunOutcome :=
  run_test client st "Root Endpoint" "GET" "api" 200 none none

/-- The `main` driver of `backend_test_ai_navigator.py`: root scenario, then
status scenario, tally, exit code. -/
def main (client : Client) : ProgResult :=
  let r1 := test_root client ⟨0, 0⟩
  let r2 := test_status client r1.state
  { exit_code := if r2.state.tests_passed = r2.state.tests_run then 0 else 1,
    state := r2.state,
    output := r1.output ++ r2.output ++ [tallyLine r2.state] }

end AINavigatorTester

/-- A heap of Python dictionary objects, addressed by identity: used to make
the in-place mutation of a caller-supplied `headers` dictionary observable. -/
abbrev Heap := Nat → Dict

namespace AINavigatorAPITester

/-- `AINavigatorAPITester.run_test` with the caller's `headers` dictionary
passed by reference: `headersRef` is the address of the caller's dictionary
(or `none` when the caller passes no headers, in which case line 16 binds the
local name to a fresh dictionary and the heap is untouched).  Line 18
(`headers['Content-Type'] = 'application/json'`) mutates the caller's object
in place, so the returned heap reflects the update.  Apart from the headers
step this is the same code as `run_test`. -/
def run_test_heap (client : Client) (st : TesterState) (name method endpoint : String)
    (expected_status : Nat) (data : Option Json) (headersRef : Option Nat)
    (heap : Heap) : RunOutcome × Heap :=
  match headersRef with
  | none =>
      (after_try ⟨st.tests_run + 1, st.tests_passed⟩ name
        (try_body client (base_url ++ "/" ++ endpoint)
          [("Content-Type", "application/json")] method expected_status data),
       heap)
  | some a =>
      let d := dictSet (heap a) "Content-Type" "application/json"
      (after_try ⟨st.tests_run + 1, st.tests_passed⟩ name
        (try_body client (base_url ++ "/" ++ endpoint) d method expected_status data),
       Function.update heap a d)

end AINavigatorAPITester

/-- The arguments of one `run_test` invocation together with the client
behaviour in effect for it (used to state counter invariants over arbitrary
invocation sequences). -/
structure CallArgs where
  client : Client
  name : String
  method : String
  endpoint : String
  expected_status : Nat
  data : Option Json
  headers : Option Dict

/-- Fold a sequence of `AINavigatorAPITester.run_test` invocations over the
tester state. -/
def run_many1 : List CallArgs → TesterState → TesterState
  | [], st => st
  | a :: rest, st =>
      run_many1 rest
        (AINavigatorAPITester.run_test a.client st a.name a.method a.endpoint
          a.expected_status a.data a.headers).state

/-- Fold a sequence of `AINavigatorTester.run_test` invocations over the
tester state. -/
def run_many2 : List CallArgs → TesterState → TesterState
  | [], st => st
  | a :: rest, st =>
      run_many2 rest
        (AINavigatorTester.run_test a.client st a.name a.method a.endpoint
          a.expected_status a.data a.headers).state

/-! ## Helper lemmas -/

lemma dictGet_dictSet_self (d : Dict) (key val : String) :
    dictGet (dictSet d key val) key = some val := by
  induction d with
  | nil => simp [dictSet, dictGet]
  | cons p rest ih =>
      obtain ⟨k, v⟩ := p
      by_cases h : k = key
      · simp [dictSet, dictGet, h]
      · simp [dictSet, dictGet, h, ih]

lemma dictGet_dictSet_ne (d : Dict) (key val k : String) (hk : k ≠ key) :
    dictGet (dictSet d key val) k = dictGet d k := by
  induction d with
  | nil => simp [dictSet, dictGet, Ne.symm hk]
  | cons p rest ih =>
      obtain ⟨k0, v0⟩ := p
      by_cases h : k0 = key
      · subst h
        simp [dictSet, dictGet, Ne.symm hk]
      · simp only [dictSet, if_neg h, dictGet]
        by_cases h0 : k0 = k <;> simp [h0, ih]

namespace AINavigatorAPITester

lemma after_try_calls1 (st1 : TesterState) (name : String)
    (res : Except PyExn (Bool × PyValue × List String) × List HttpCall) :
    (after_try st1 name res).calls = res.2 := by
  obtain ⟨exc, calls⟩ := res
  cases exc with
  | ok v => rfl
  | error e => rfl

lemma after_try_tests_run1 (st1 : TesterState) (name : String)
    (res : Except PyExn (Bool × PyValue × List String) × List HttpCall) :
    (after_try st1 name res).state.tests_run = st1.tests_run := by
  obtain ⟨exc, calls⟩ := res
  cases exc with
  | ok v =>
      obtain ⟨s, ret, lines⟩ := v
      cases s <;> rfl
  | error e => rfl

lemma after_try_tests_passed1 (st1 : TesterState) (name : String)
    (res : Except PyExn (Bool × PyValue × List String) × List HttpCall) :
    (after_try st1 name res).state.tests_passed
      = st1.tests_passed + (if (after_try st1 name res).success = true then 1 else 0) := by
  obtain ⟨exc, calls⟩ := res
  cases exc with
  | ok v =>
      obtain ⟨s, ret, lines⟩ := v
      cases s <;> rfl
  | error e => rfl

lemma run_test_tests_run1 (client : Client) (st : TesterState)
    (name method endpoint : String) (expected_status : Nat)
    (data : Option Json) (headers : Option Dict) :
    (run_test client st name method endpoint expected_status data headers).state.tests_run
      = st.tests_run + 1 :=
  after_try_tests_run1 _ _ _

lemma run_test_tests_passed1 (client : Client) (st : TesterState)
    (name method endpoint : String) (expected_status : Nat)
    (data : Option Json) (headers : Option Dict) :
    (run_test client st name method endpoint expected_status data headers).state.tests_passed
      = st.tests_passed +
        (if (run_test client st name method endpoint expected_status data headers).success = true
         then 1 else 0) :=
  after_try_tests_passed1 _ _ _

end AINavigatorAPITester

namespace AINavigatorTester

lemma after_try_calls2 (st1 : TesterState) (name : String)
    (res : Except PyExn (Bool × PyValue × List String) × List HttpCall) :
    (after_try st1 name res).calls = res.2 := by
  obtain ⟨exc, calls⟩ := res
  cases exc with
  | ok v => rfl
  | error e => rfl

lemma after_try_tests_run2 (st1 : TesterState) (name : String)
    (res : Except PyExn (Bool × PyValue × List String) × List HttpCall) :
    (after_try st1 name res).state.tests_run = st1.tests_run := by
  obtain ⟨exc, calls⟩ := res
  cases exc with
  | ok v =>
      obtain ⟨s, ret, lines⟩ := v
      cases s <;> rfl
  | error e => rfl

lemma after_try_tests_passed2 (st1 : TesterState) (name : String)
    (res : Except PyExn (Bool × PyValue × List String) × List HttpCall) :
    (after_try st1 name res).state.tests_passed
      = st1.tests_passed + (if (after_try st1 name res).success = true then 1 else 0) := by
  obtain ⟨exc, calls⟩ := res
  cases exc with
  | ok v =>
      obtain ⟨s, ret, lines⟩ := v
      cases s <;> rfl
  | error e => rfl

lemma run_test_tests_run2 (client : Client) (st : TesterState)
    (name method endpoint : String) (expected_status : Nat)
    (data : Option Json) (headers : Option Dict) :
    (run_test client st name method endpoint expected_status data headers).state.tests_run
      = st.tests_run + 1 :=
  after_try_tests_run2 _ _ _

lemma run_test_tests_passed2 (client : Client) (st : TesterState)
    (name method endpoint : String) (expected_status : Nat)
    (data : Option Json) (headers : Option Dict) :
    (run_test client st name method endpoint expected_status data headers).state.tests_passed
      = st.tests_passed +
        (if (run_test client st name method endpoint expected_status data headers).success = true
         then 1 else 0) :=
  after_try_tests_passed2 _ _ _

end AINavigatorTester

lemma run_many1_inv : ∀ (ops : List CallArgs) (st : TesterState),
    st.tests_passed ≤ st.tests_run →
    (run_many1 ops st).tests_passed ≤ (run_many1 ops st).tests_run := by
  intro ops
  induction ops with
  | nil => intro st h; exact h
  | cons a rest ih =>
      intro st h
      refine ih _ ?_
      have h1 := AINavigatorAPITester.run_test_tests_run1 a.client st a.name a.method
        a.endpoint a.expected_status a.data a.headers
      have h2 := AINavigatorAPITester.run_test_tests_passed1 a.client st a.name a.method
        a.endpoint a.expected_status a.data a.headers
      rw [h1, h2]
      split <;> omega

lemma run_many2_inv : ∀ (ops : List CallArgs) (st : TesterState),
    st.tests_passed ≤ st.tests_run →
    (run_many2 ops st).tests_passed ≤ (run_many2 ops st).tests_run := by
  intro ops
  induction ops with
  | nil => intro st h; exact h
  | cons a rest ih =>
      intro st h
      refine ih _ ?_
      have h1 := AINavigatorTester.run_test_tests_run2 a.client st a.name a.method
        a.endpoint a.expected_status a.data a.headers
      have h2 := AINavigatorTester.run_test_tests_passed2 a.client st a.name a.method
        a.endpoint a.expected_status a.data a.headers
      rw [h1, h2]
      split <;> omega

namespace AINavigatorAPITester

lemma try_body_calls_get1 (client : Client) (url : String) (hdrs : Dict)
    (expected_status : Nat) (data : Option Json) :
    (try_body client url hdrs "GET" expected_status data).2 = [HttpCall.get url hdrs] := by
  unfold try_body
  rw [if_pos rfl]
  cases client (HttpCall.get url hdrs) <;> rfl

lemma try_body_calls_post1 (client : Client) (url : String) (hdrs : Dict)
    (expected_status : Nat) (data : Option Json) :
    (try_body client url hdrs "POST" expected_status data).2
      = [HttpCall.post url data hdrs] := by
  unfold try_body
  rw [if_neg (by decide), if_pos rfl]
  cases client (HttpCall.post url data hdrs) <;> rfl

lemma run_test_calls_get1 (client : Client) (st : TesterState) (name endpoint : String)
    (expected_status : Nat) (data : Option Json) (headers : Option Dict) :
    (run_test client st name "GET" endpoint expected_status data headers).calls
      = [HttpCall.get (base_url ++ "/" ++ endpoint) (merged_headers headers)] := by
  unfold run_test
  rw [after_try_calls1, try_body_calls_get1]

lemma run_test_calls_post1 (client : Client) (st : TesterState) (name endpoint : String)
    (expected_status : Nat) (data : Option Json) (headers : Option Dict) :
    (run_test client st name "POST" endpoint expected_status data headers).calls
      = [HttpCall.post (base_url ++ "/" ++ endpoint) data (merged_headers headers)] := by
  unfold run_test
  rw [after_try_calls1, try_body_calls_post1]

end AINavigatorAPITester

namespace AINavigatorTester

lemma try_body_calls_get2 (client : Client) (url : String) (hdrs : Dict)
    (expected_status : Nat) (data : Option Json) :
    (try_body client url hdrs "GET" expected_status data).2 = [HttpCall.get url hdrs] := by
  unfold try_body
  rw [if_pos rfl]
  cases client (HttpCall.get url hdrs) <;> rfl

lemma try_body_calls_post2 (client : Client) (url : String) (hdrs : Dict)
    (expected_status : Nat) (data : Option Json) :
    (try_body client url hdrs "POST" expected_status data).2
      = [HttpCall.post url data hdrs] := by
  unfold try_body
  rw [if_neg (by decide), if_pos rfl]
  cases client (HttpCall.post url data hdrs) <;> rfl

lemma run_test_calls_get2 (client : Client) (st : TesterState) (name endpoint : String)
    (expected_status : Nat) (data : Option Json) (headers : Option Dict) :
    (run_test client st name "GET" endpoint expected_status data headers).calls
      = [HttpCall.get (base_url ++ "/" ++ endpoint) (given_headers headers)] := by
  unfold run_test
  rw [after_try_calls2, try_body_calls_get2]

lemma run_test_calls_post2 (client : Client) (st : TesterState) (name endpoint : String)
    (expected_status : Nat) (data : Option Json) (headers : Option Dict) :
    (run_test client st name "POST" endpoint expected_status data headers).calls
      = [HttpCall.post (base_url ++ "/" ++ endpoint) data (given_headers headers)] := by
  unfold run_test
  rw [after_try_calls2, try_body_calls_post2]

end AINavigatorTester

/-! ## Claim theorems -/

/-- Claim C1: for every invocation of `run_test` (in either script) in which
an HTTP response is received, the returned success flag is true if and only
if the response's numeric status code is exactly equal to the
`expected_status` argument — exact equality, no ranges or coercion.  The
client delivering response `r` on every call covers every invocation that
receives a response; both the GET and the POST arm are covered for both
scripts. -/
theorem claim1_success_iff_exact_status (r : Response) (st : TesterState)
    (name endpoint : String) (expected_status : Nat)
    (data : Option Json) (headers : Option Dict) :
    ((AINavigatorAPITester.run_test (fun _ => HttpOutcome.response r) st name "GET" endpoint
        expected_status data headers).success = (r.status_code == expected_status))
    ∧ ((AINavigatorAPITester.run_test (fun _ => HttpOutcome.response r) st name "POST" endpoint
        expected_status data headers).success = (r.status_code == expected_status))
    ∧ ((AINavigatorTester.run_test (fun _ => HttpOutcome.response r) st name "GET" endpoint
        expected_status data headers).success = (r.status_code == expected_status))
    ∧ ((AINavigatorTester.run_test (fun _ => HttpOutcome.response r) st name "POST" endpoint
        expected_status data headers).success = (r.status_code == expected_status)) := by
  refine ⟨?_, ?_, ?_, ?_⟩ <;>
    cases h : r.status_code == expected_status <;>
      cases hj : r.json <;>
        simp [AINavigatorAPITester.run_test, AINavigatorAPITester.try_body,
          AINavigatorAPITester.inspect, AINavigatorAPITester.after_try,
          AINavigatorTester.run_test, AINavigatorTester.try_body,
          AINavigatorTester.inspect, AINavigatorTester.after_try, h, hj]

/-- Claim C2: every `run_test` invocation (in either script) increments
`tests_run` by exactly 1 on every outcome, increments `tests_passed` by 1
exactly when the invocation succeeds and by 0 otherwise, and consequently
`tests_passed ≤ tests_run` holds after every sequence of invocations started
from the initial state `(0, 0)`. -/
theorem claim2_counter_increments (client : Client) (st : TesterState)
    (name method endpoint : String) (expected_status : Nat)
    (data : Option Json) (headers : Option Dict) :
    ((AINavigatorAPITester.run_test client st name method endpoint expected_status data
        headers).state.tests_run = st.tests_run + 1)
    ∧ ((AINavigatorAPITester.run_test client st name method endpoint expected_status data
        headers).state.tests_passed
        = st.tests_passed +
          (if (AINavigatorAPITester.run_test client st name method endpoint expected_status
                data headers).success = true then 1 else 0))
    ∧ ((AINavigatorTester.run_test client st name method endpoint expected_status data
        headers).state.tests_run = st.tests_run + 1)
    ∧ ((AINavigatorTester.run_test client st name method endpoint expected_status data
        headers).state.tests_passed
        = st.tests_passed +
          (if (AINavigatorTester.run_test client st name method endpoint expected_status
                data headers).success = true then 1 else 0))
    ∧ (∀ ops : List CallArgs,
        (run_many1 ops ⟨0, 0⟩).tests_passed ≤ (run_many1 ops ⟨0, 0⟩).tests_run)
    ∧ (∀ ops : List CallArgs,
        (run_many2 ops ⟨0, 0⟩).tests_passed ≤ (run_many2 ops ⟨0, 0⟩).tests_run) :=
  ⟨AINavigatorAPITester.run_test_tests_run1 client st name method endpoint expected_status
      data headers,
   AINavigatorAPITester.run_test_tests_passed1 client st name method endpoint expected_status
      data headers,
   AINavigatorTester.run_test_tests_run2 client st name method endpoint expected_status
      data headers,
   AINavigatorTester.run_test_tests_passed2 client st name method endpoint expected_status
      data headers,
   fun ops => run_many1_inv ops ⟨0, 0⟩ (Nat.le_refl 0),
   fun ops => run_many2_inv ops ⟨0, 0⟩ (Nat.le_refl 0)⟩

/-- Claim C3: for every run of either driver `main`, the aggregate
passed/attempted tally is printed, and the returned process exit status is
`0` exactly when `tests_passed` equals `tests_run` at the end, and `1`
otherwise. -/
theorem claim3_driver_exit_code (client : Client) (now : Timestamp) :
    ((AINavigatorAPITester.main client now).exit_code
      = if (AINavigatorAPITester.main client now).state.tests_passed
            = (AINavigatorAPITester.main client now).state.tests_run then 0 else 1)
    ∧ tallyLine (AINavigatorAPITester.main client now).state
        ∈ (AINavigatorAPITester.main client now).output
    ∧ ((AINavigatorTester.main client).exit_code
      = if (AINavigatorTester.main client).state.tests_passed
            = (AINavigatorTester.main client).state.tests_run then 0 else 1)
    ∧ tallyLine (AINavigatorTester.main client).state
        ∈ (AINavigatorTester.main client).output := by
  refine ⟨rfl, ?_, rfl, ?_⟩ <;>
    simp [AINavigatorAPITester.main, AINavigatorTester.main]

/-- Claim C4 counterexample: in `backend_test.py`, a transport-level error
makes `run_test` return `(False, None)` — the second component is Python
`None`, not an empty mapping, so the claim's "returns ... an empty result
(an empty mapping)" is false for this invocation. -/
theorem claim4_counterexample :
    (AINavigatorAPITester.run_test (fun _ => HttpOutcome.transportError "Connection refused")
        ⟨0, 0⟩ "Root API Endpoint" "GET" "api" 200 none none).ret = PyValue.pynone
    ∧ PyValue.pynone ≠ PyValue.json (Json.obj JsonObj.nil) :=
  ⟨rfl, fun h => nomatch h⟩

/-- Claim C4 as amended: for every invocation of `run_test` in which the
HTTP request raises a transport-level error, the call prints an error line,
returns `success=False`, and does not propagate the exception to the caller;
the second component of the result is an empty mapping in
`backend_test_ai_navigator.py` but Python `None` in `backend_test.py`.  The
full `RunOutcome` records show the complete observable behaviour (no
exception escapes, the error diagnostic is printed, the counters move only
by the `tests_run` increment). -/
theorem claim4_amended (msg : String) (st : TesterState) (name endpoint : String)
    (expected_status : Nat) (data : Option Json) (headers : Option Dict) :
    (AINavigatorAPITester.run_test (fun _ => HttpOutcome.transportError msg) st name "GET"
        endpoint expected_status data headers
      = ⟨false, PyValue.pynone, ⟨st.tests_run + 1, st.tests_passed⟩,
          [testingLine name, errorLine (PyExn.transportError msg)],
          [HttpCall.get (base_url ++ "/" ++ endpoint)
            (AINavigatorAPITester.merged_headers headers)]⟩)
    ∧ (AINavigatorAPITester.run_test (fun _ => HttpOutcome.transportError msg) st name "POST"
        endpoint expected_status data headers
      = ⟨false, PyValue.pynone, ⟨st.tests_run + 1, st.tests_passed⟩,
          [testingLine name, errorLine (PyExn.transportError msg)],
          [HttpCall.post (base_url ++ "/" ++ endpoint) data
            (AINavigatorAPITester.merged_headers headers)]⟩)
    ∧ (AINavigatorTester.run_test (fun _ => HttpOutcome.transportError msg) st name "GET"
        endpoint expected_status data headers
      = ⟨false, PyValue.json (Json.obj JsonObj.nil), ⟨st.tests_run + 1, st.tests_passed⟩,
          [testingLine name, errorLine (PyExn.transportError msg)],
          [HttpCall.get (base_url ++ "/" ++ endpoint)
            (AINavigatorTester.given_headers headers)]⟩)
    ∧ (AINavigatorTester.run_test (fun _ => HttpOutcome.transportError msg) st name "POST"
        endpoint expected_status data headers
      = ⟨false, PyValue.json (Json.obj JsonObj.nil), ⟨st.tests_run + 1, st.tests_passed⟩,
          [testingLine name, errorLine (PyExn.transportError msg)],
          [HttpCall.post (base_url ++ "/" ++ endpoint) data
            (AINavigatorTester.given_headers headers)]⟩) :=
  ⟨rfl, rfl, rfl, rfl⟩

/-- Claim C5: for every invocation of `run_test` in which a response is
received whose body is not valid JSON (`response.json()` raises), the
parsing fallback yields an empty mapping as the second component
(`backend_test_ai_navigator.py`) or a truncated text preview is printed
(`backend_test.py`, whenever the body text is non-empty); the call does not
fail, and the success flag is still determined solely by the status-code
comparison. -/
theorem claim5_nonjson_body_fallback (st : TesterState) (name endpoint : String)
    (expected_status code : Nat) (text : String)
    (data : Option Json) (headers : Option Dict) :
    ((AINavigatorTester.run_test (fun _ => HttpOutcome.response ⟨code, text, none⟩) st name
        "GET" endpoint expected_status data headers).ret = PyValue.json (Json.obj JsonObj.nil))
    ∧ ((AINavigatorTester.run_test (fun _ => HttpOutcome.response ⟨code, text, none⟩) st name
        "POST" endpoint expected_status data headers).ret = PyValue.json (Json.obj JsonObj.nil))
    ∧ ((AINavigatorTester.run_test (fun _ => HttpOutcome.response ⟨code, text, none⟩) st name
        "GET" endpoint expected_status data headers).success = (code == expected_status))
    ∧ ((AINavigatorAPITester.run_test (fun _ => HttpOutcome.response ⟨code, text, none⟩) st name
        "GET" endpoint expected_status data headers).ret
        = PyValue.responseObj ⟨code, text, none⟩)
    ∧ ((AINavigatorAPITester.run_test (fun _ => HttpOutcome.response ⟨code, text, none⟩) st name
        "POST" endpoint expected_status data headers).ret
        = PyValue.responseObj ⟨code, text, none⟩)
    ∧ ((AINavigatorAPITester.run_test (fun _ => HttpOutcome.response ⟨code, text, none⟩) st name
        "GET" endpoint expected_status data headers).success = (code == expected_status))
    ∧ (AINavigatorAPITester.previewLine text
        ∈ (AINavigatorAPITester.run_test (fun _ => HttpOutcome.response ⟨code, text, none⟩)
            st name "GET" endpoint expected_status data headers).output
       ∨ text = "") := by
  refine ⟨?_, ?_, ?_, ?_, ?_, ?_, ?_⟩ <;>
    cases h : code == expected_status <;>
      by_cases ht : text = "" <;>
        simp [AINavigatorAPITester.run_test, AINavigatorAPITester.try_body,
          AINavigatorAPITester.inspect, AINavigatorAPITester.after_try,
          AINavigatorTester.run_test, AINavigatorTester.try_body,
          AINavigatorTester.inspect, AINavigatorTester.after_try, h, ht]

/-- Claim C6 counterexample: in `backend_test_ai_navigator.py`, a
caller-supplied headers mapping is sent unchanged — here the request goes
out with `Content-Type: text/plain`, so the Content-Type header is not
force-set to `application/json` as the claim states. -/
theorem claim6_counterexample :
    (AINavigatorTester.run_test
        (fun _ => HttpOutcome.response ⟨200, "", some (Json.obj JsonObj.nil)⟩)
        ⟨0, 0⟩ "Status Endpoint" "GET" "api/status" 200 none
        (some [("Content-Type", "text/plain")])).calls
      = [HttpCall.get (base_url ++ "/" ++ "api/status") [("Content-Type", "text/plain")]]
    ∧ ("text/plain" : String) ≠ "application/json" :=
  ⟨rfl, by decide⟩

/-- Claim C6 as amended: in `backend_test.py`, with no caller headers the
request carries exactly the default `Content-Type: application/json`, and
with caller headers every caller-supplied key is preserved while
Content-Type is force-set to `application/json`; in
`backend_test_ai_navigator.py`, the default applies only when the caller
supplies no headers, and a caller-supplied mapping is sent completely
unchanged (Content-Type is not overridden). -/
theorem claim6_amended (client : Client) (st : TesterState) (name endpoint : String)
    (expected_status : Nat) (data : Option Json) (h : Dict) :
    ((AINavigatorAPITester.run_test client st name "GET" endpoint expected_status data
        none).calls
      = [HttpCall.get (base_url ++ "/" ++ endpoint) [("Content-Type", "application/json")]])
    ∧ ((AINavigatorAPITester.run_test client st name "POST" endpoint expected_status data
        none).calls
      = [HttpCall.post (base_url ++ "/" ++ endpoint) data
          [("Content-Type", "application/json")]])
    ∧ ((AINavigatorAPITester.run_test client st name "GET" endpoint expected_status data
        (some h)).calls
      = [HttpCall.get (base_url ++ "/" ++ endpoint)
          (dictSet h "Content-Type" "application/json")])
    ∧ ((AINavigatorAPITester.run_test client st name "POST" endpoint expected_status data
        (some h)).calls
      = [HttpCall.post (base_url ++ "/" ++ endpoint) data
          (dictSet h "Content-Type" "application/json")])
    ∧ (dictGet (dictSet h "Content-Type" "application/json") "Content-Type"
        = some "application/json")
    ∧ (∀ k : String, k ≠ "Content-Type" →
        dictGet (dictSet h "Content-Type" "application/json") k = dictGet h k)
    ∧ ((AINavigatorTester.run_test client st name "GET" endpoint expected_status data
        none).calls
      = [HttpCall.get (base_url ++ "/" ++ endpoint) [("Content-Type", "application/json")]])
    ∧ ((AINavigatorTester.run_test client st name "POST" endpoint expected_status data
        none).calls
      = [HttpCall.post (base_url ++ "/" ++ endpoint) data
          [("Content-Type", "application/json")]])
    ∧ ((AINavigatorTester.run_test client st name "GET" endpoint expected_status data
        (some h)).calls = [HttpCall.get (base_url ++ "/" ++ endpoint) h])
    ∧ ((AINavigatorTester.run_test client st name "POST" endpoint expected_status data
        (some h)).calls = [HttpCall.post (base_url ++ "/" ++ endpoint) data h]) :=
  ⟨AINavigatorAPITester.run_test_calls_get1 client st name endpoint expected_status data none,
   AINavigatorAPITester.run_test_calls_post1 client st name endpoint expected_status data none,
   AINavigatorAPITester.run_test_calls_get1 client st name endpoint expected_status data (some h),
   AINavigatorAPITester.run_test_calls_post1 client st name endpoint expected_status data (some h),
   dictGet_dictSet_self h "Content-Type" "application/json",
   fun k hk => dictGet_dictSet_ne h "Content-Type" "application/json" k hk,
   AINavigatorTester.run_test_calls_get2 client st name endpoint expected_status data none,
   AINavigatorTester.run_test_calls_post2 client st name endpoint expected_status data none,
   AINavigatorTester.run_test_calls_get2 client st name endpoint expected_status data (some h),
   AINavigatorTester.run_test_calls_post2 client st name endpoint expected_status data (some h)⟩

/-- Claim C6 witness: the amended theorem applied at a concrete invocation —
a caller-supplied `X-API-Key` header survives the Content-Type merge of
`backend_test.py`. -/
theorem claim6_witness :
    dictGet (dictSet [("X-API-Key", "test-key-123")] "Content-Type" "application/json")
        "X-API-Key" = some "test-key-123" :=
  (claim6_amended (fun _ => HttpOutcome.transportError "down") ⟨0, 0⟩
      "Generate Roadmap (With API Key)" "api/generate" 200 none
      [("X-API-Key", "test-key-123")]).2.2.2.2.2.1 "X-API-Key" (by decide)

/-- Claim C7: for every `run_test` invocation with a method other than GET
or POST (in either script), no HTTP request is issued, the `try` body raises
the unbound-`response` `NameError`, and the surrounding handler converts it
into `success=False` with an empty result (`None` in `backend_test.py`,
`\x7b\x7d` in `backend_test_ai_navigator.py`) instead of propagating. -/
theorem claim7_unsupported_method_no_request (method : String)
    (hg : method ≠ "GET") (hp : method ≠ "POST")
    (client : Client) (st : TesterState) (name endpoint : String)
    (expected_status : Nat) (data : Option Json) (headers : Option Dict) :
    (AINavigatorAPITester.try_body client (base_url ++ "/" ++ endpoint)
        (AINavigatorAPITester.merged_headers headers) method expected_status data
      = (Except.error PyExn.nameError, []))
    ∧ ((AINavigatorAPITester.run_test client st name method endpoint expected_status data
        headers).calls = [])
    ∧ ((AINavigatorAPITester.run_test client st name method endpoint expected_status data
        headers).success = false)
    ∧ ((AINavigatorAPITester.run_test client st name method endpoint expected_status data
        headers).ret = PyValue.pynone)
    ∧ ((AINavigatorAPITester.run_test client st name method endpoint expected_status data
        headers).output = [testingLine name, errorLine PyExn.nameError])
    ∧ (AINavigatorTester.try_body client (base_url ++ "/" ++ endpoint)
        (AINavigatorTester.given_headers headers) method expected_status data
      = (Except.error PyExn.nameError, []))
    ∧ ((AINavigatorTester.run_test client st name method endpoint expected_status data
        headers).calls = [])
    ∧ ((AINavigatorTester.run_test client st name method endpoint expected_status data
        headers).success = false)
    ∧ ((AINavigatorTester.run_test client st name method endpoint expected_status data
        headers).ret = PyValue.json (Json.obj JsonObj.nil)) := by
  have h1 : AINavigatorAPITester.try_body client (base_url ++ "/" ++ endpoint)
      (AINavigatorAPITester.merged_headers headers) method expected_status data
      = (Except.error PyExn.nameError, []) := by
    unfold AINavigatorAPITester.try_body
    rw [if_neg hg, if_neg hp]
  have h2 : AINavigatorTester.try_body client (base_url ++ "/" ++ endpoint)
      (AINavigatorTester.given_headers headers) method expected_status data
      = (Except.error PyExn.nameError, []) := by
    unfold AINavigatorTester.try_body
    rw [if_neg hg, if_neg hp]
  refine ⟨h1, ?_, ?_, ?_, ?_, h2, ?_, ?_, ?_⟩ <;>
    simp [AINavigatorAPITester.run_test, AINavigatorTester.run_test,
      AINavigatorAPITester.after_try, AINavigatorTester.after_try, h1, h2]

/-- Claim C7 witness: the theorem applied at the concrete unsupported method
`PUT`. -/
theorem claim7_witness :
    (AINavigatorAPITester.run_test (fun _ => HttpOutcome.transportError "down") ⟨0, 0⟩
        "Root API Endpoint" "PUT" "api" 200 none none).calls = [] :=
  (claim7_unsupported_method_no_request "PUT" (by decide) (by decide)
      (fun _ => HttpOutcome.transportError "down") ⟨0, 0⟩
      "Root API Endpoint" "api" 200 none none).2.1

/-- Claim C8: `run_test` never propagates an exception past its call
boundary — whenever the `try` body of either script raises (transport error
issuing the request, or the unbound-`response` `NameError`: these are the
only raise sites), the handler converts it into a failed result together
with the printed diagnostic line; and the driver always proceeds through
every scenario, so the final `tests_run` is the full scenario count (5 in
`backend_test.py`, 2 in `backend_test_ai_navigator.py`) for every client
behaviour. -/
theorem claim8_no_exception_escapes (client : Client) (st : TesterState)
    (name method endpoint : String) (expected_status : Nat)
    (data : Option Json) (headers : Option Dict)
    (e : PyExn) (calls : List HttpCall) :
    (AINavigatorAPITester.try_body client (base_url ++ "/" ++ endpoint)
        (AINavigatorAPITester.merged_headers headers) method expected_status data
        = (Except.error e, calls) →
      AINavigatorAPITester.run_test client st name method endpoint expected_status data headers
        = ⟨false, PyValue.pynone, ⟨st.tests_run + 1, st.tests_passed⟩,
            [testingLine name, errorLine e], calls⟩)
    ∧ (AINavigatorTester.try_body client (base_url ++ "/" ++ endpoint)
        (AINavigatorTester.given_headers headers) method expected_status data
        = (Except.error e, calls) →
      AINavigatorTester.run_test client st name method endpoint expected_status data headers
        = ⟨false, PyValue.json (Json.obj JsonObj.nil), ⟨st.tests_run + 1, st.tests_passed⟩,
            [testingLine name, errorLine e], calls⟩)
    ∧ (∀ now : Timestamp, (AINavigatorAPITester.main client now).state.tests_run = 5)
    ∧ ((AINavigatorTester.main client).state.tests_run = 2) := by
  refine ⟨?_, ?_, ?_, ?_⟩
  · intro hb
    unfold AINavigatorAPITester.run_test
    rw [hb]
    rfl
  · intro hb
    unfold AINavigatorTester.run_test
    rw [hb]
    rfl
  · intro now
    simp [AINavigatorAPITester.main, AINavigatorAPITester.test_root_endpoint,
      AINavigatorAPITester.test_status_endpoint, AINavigatorAPITester.test_create_status,
      AINavigatorAPITester.test_generate_roadmap_free_query,
      AINavigatorAPITester.test_generate_roadmap_with_api_key,
      AINavigatorAPITester.run_test_tests_run1]
  · simp [AINavigatorTester.main, AINavigatorTester.test_root, AINavigatorTester.test_status,
      AINavigatorTester.run_test_tests_run2]

/-- Claim C8 witness: the theorem applied at a concrete transport-error
invocation of `backend_test.py`. -/
theorem claim8_witness :
    AINavigatorAPITester.run_test (fun _ => HttpOutcome.transportError "boom") ⟨0, 0⟩
        "Root API Endpoint" "GET" "api" 200 none none
      = ⟨false, PyValue.pynone, ⟨1, 0⟩,
          [testingLine "Root API Endpoint", errorLine (PyExn.transportError "boom")],
          [HttpCall.get (base_url ++ "/" ++ "api") [("Content-Type", "application/json")]]⟩ :=
  (claim8_no_exception_escapes (fun _ => HttpOutcome.transportError "boom") ⟨0, 0⟩
      "Root API Endpoint" "GET" "api" 200 none none (PyExn.transportError "boom")
      [HttpCall.get (base_url ++ "/" ++ "api") [("Content-Type", "application/json")]]).1 rfl

/-- Claim C9 counterexample: the client identifier of `test_create_status`
is built with `strftime('%Y%m%d%H%M%S')`, a second-resolution format — two
distinct instants within the same second (differing only in microseconds)
yield the identical identifier, refuting both "derived from a sub-second
timestamp" and "any two invocations within the same process run produce
distinct identifiers". -/
theorem claim9_counterexample :
    client_name ⟨2026, 10, 12, 1, 2, 3, 0⟩ = client_name ⟨2026, 10, 12, 1, 2, 3, 500000⟩
    ∧ (⟨2026, 10, 12, 1, 2, 3, 0⟩ : Timestamp) ≠ ⟨2026, 10, 12, 1, 2, 3, 500000⟩ :=
  ⟨rfl, by decide⟩

/-- Claim C9 as amended: the status-write scenario's request body contains a
single client-identifier field (`client_name`) whose value is derived from a
second-resolution timestamp (`%Y%m%d%H%M%S`); the identifier ignores the
sub-second component of the instant, so two invocations within the same
second of a run produce identical identifiers and uniqueness within a run is
not guaranteed. -/
theorem claim9_amended (client : Client) (st : TesterState) (t : Timestamp) :
    ((AINavigatorAPITester.test_create_status client st t).calls
      = [HttpCall.post (base_url ++ "/" ++ "api/status")
          (some (Json.obj (JsonObj.cons "client_name" (Json.str (client_name t)) JsonObj.nil)))
          [("Content-Type", "application/json")]])
    ∧ client_name t = client_name (secondsPart t) := by
  refine ⟨?_, rfl⟩
  rw [AINavigatorAPITester.test_create_status,
    AINavigatorAPITester.run_test_calls_post1]
  rfl

/-- Claim C10: in `backend_test.py`, when the caller supplies a headers
dictionary, `run_test` mutates that very object in place — after the call
the caller's dictionary (heap cell `a`) has its Content-Type key set to
`application/json`, all other heap cells are untouched, the result is
exactly that of `run_test` on the updated dictionary, the counters move as
usual, and with no caller-supplied headers the heap is unchanged. -/
theorem claim10_caller_headers_mutated_in_place (client : Client) (st : TesterState)
    (name method endpoint : String) (expected_status : Nat) (data : Option Json)
    (a : Nat) (heap : Heap) :
    ((AINavigatorAPITester.run_test_heap client st name method endpoint expected_status data
        (some a) heap).2
      = Function.update heap a (dictSet (heap a) "Content-Type" "application/json"))
    ∧ (dictGet ((AINavigatorAPITester.run_test_heap client st name method endpoint
          expected_status data (some a) heap).2 a) "Content-Type"
        = some "application/json")
    ∧ ((AINavigatorAPITester.run_test_heap client st name method endpoint expected_status data
        (some a) heap).1
      = AINavigatorAPITester.run_test client st name method endpoint expected_status data
          (some (heap a)))
    ∧ ((AINavigatorAPITester.run_test_heap client st name method endpoint expected_status data
        (some a) heap).1.state.tests_run = st.tests_run + 1)
    ∧ ((AINavigatorAPITester.run_test_heap client st name method endpoint expected_status data
        (some a) heap).1.state.tests_passed
        = st.tests_passed +
          (if (AINavigatorAPITester.run_test_heap client st name method endpoint expected_status
                data (some a) heap).1.success = true then 1 else 0))
    ∧ ((AINavigatorAPITester.run_test_heap client st name method endpoint expected_status data
        none heap).2 = heap) := by
  refine ⟨rfl, ?_, rfl, ?_, ?_, rfl⟩
  · show dictGet (Function.update heap a (dictSet (heap a) "Content-Type" "application/json") a)
        "Content-Type" = some "application/json"
    rw [Function.update_same]
    exact dictGet_dictSet_self (heap a) "Content-Type" "application/json"
  · exact AINavigatorAPITester.after_try_tests_run1 _ _ _
  · exact AINavigatorAPITester.after_try_tests_passed1 _ _ _
